import Mathlib

/-!
Shallow embedding of the Online-Service-Management Azle canister
(src/src/index.ts).  The file contains two concatenated variants of the
canister; each definition below notes the line range it embeds.  The global
stable maps become an explicit `State` threaded through every operation, the
uuid generator and `ic.time()` become explicit `newId`/`now` arguments, and
`Principal` callers become their string form (the code only ever uses
`caller.toString()`).  TypeScript `number` (used for ratings) is embedded as
`JSNum`: NaN or an exact rational.
-/

namespace OSM

/-- JavaScript number as used for review ratings: NaN or an exact rational. -/
inductive JSNum where
  | nan : JSNum
  | num (q : ℚ) : JSNum
deriving DecidableEq

/-- Embedding of JavaScript `isNaN`. -/
def JSNum.isNaN : JSNum → Bool
  | .nan => true
  | .num _ => false

/-- JavaScript `<` on numbers: any comparison involving NaN is false. -/
def JSNum.jlt : JSNum → JSNum → Bool
  | .nan, _ => false
  | .num _, .nan => false
  | .num a, .num b => decide (a < b)

/-- JavaScript `+` on numbers: NaN propagates. -/
def JSNum.add : JSNum → JSNum → JSNum
  | .nan, _ => .nan
  | .num _, .nan => .nan
  | .num a, .num b => .num (a + b)

/-- Division of a JavaScript number by a count; only reached with a positive
count in the source (the empty case returns an error before dividing). -/
def JSNum.divNat : JSNum → Nat → JSNum
  | .nan, _ => .nan
  | .num a, n => .num (a / (n : ℚ))

/-- ServiceRecord (index.ts lines 18-30). `nat64` timestamps become `Nat`,
`Opt<nat64>` becomes `Option Nat`. -/
structure ServiceRecord where
  id : String
  name : String
  category : String
  provider : String
  date : String
  startTime : String
  endTime : String
  location : String
  description : String
  createdAt : Nat
  updatedAt : Option Nat
deriving DecidableEq

/-- ServicePayload (index.ts lines 32-41): the eight caller-suppliable text
fields; id, createdAt and updatedAt are absent. -/
structure ServicePayload where
  name : String
  category : String
  provider : String
  date : String
  startTime : String
  endTime : String
  location : String
  description : String
deriving DecidableEq

/-- ReviewRecord (index.ts lines 363-370). -/
structure ReviewRecord where
  id : String
  serviceId : String
  userId : String
  rating : JSNum
  comment : String
  createdAt : Nat
deriving DecidableEq

/-- ReviewPayload (index.ts lines 372-377). -/
structure ReviewPayload where
  serviceId : String
  userId : String
  rating : JSNum
  comment : String
deriving DecidableEq

/-- User (index.ts lines 390-396). -/
structure User where
  id : String
  username : String
  email : String
  createdAt : Nat
  updatedAt : Option Nat
deriving DecidableEq

/-- UserPayload (index.ts lines 398-401). -/
structure UserPayload where
  username : String
  email : String
deriving DecidableEq

/-- Azle `Result<T, string>`: tagged success or failure with a message. -/
inductive Result (α : Type) where
  | Ok (value : α) : Result α
  | Err (error : String) : Result α
deriving DecidableEq

/-- True on the success branch of a `Result`. -/
def Result.isOk {α : Type} : Result α → Bool
  | .Ok _ => true
  | .Err _ => false

/-- The success value of a `Result`, or a default on the failure branch. -/
def Result.getD {α : Type} : Result α → α → α
  | .Ok v, _ => v
  | .Err _, d => d

/-- Insertion into an association list keyed by string: replaces the entry if
the key is present, otherwise adds a new entry. -/
def insertEntries {V : Type} (k : String) (v : V) : List (String × V) → List (String × V)
  | [] => [(k, v)]
  | p :: ps => if p.1 == k then (k, v) :: ps else p :: insertEntries k v ps

/-- The azle `StableBTreeMap<string, V>` collaborator, embedded as an
association list of entries. -/
structure StableBTreeMap (V : Type) where
  entries : List (String × V)
deriving DecidableEq

/-- `map.get(k)`: the stored value, if any. -/
def StableBTreeMap.get {V : Type} (m : StableBTreeMap V) (k : String) : Option V :=
  (m.entries.find? (fun p => p.1 == k)).map (fun p => p.2)

/-- `map.insert(k, v)`. -/
def StableBTreeMap.insert {V : Type} (m : StableBTreeMap V) (k : String) (v : V) :
    StableBTreeMap V :=
  ⟨insertEntries k v m.entries⟩

/-- `map.remove(k)`, discarding the returned previous value. -/
def StableBTreeMap.remove {V : Type} (m : StableBTreeMap V) (k : String) : StableBTreeMap V :=
  ⟨m.entries.filter (fun p => p.1 != k)⟩

/-- `map.values()`: all stored values. -/
def StableBTreeMap.values {V : Type} (m : StableBTreeMap V) : List V :=
  m.entries.map (fun p => p.2)

/-- The three global stable maps (index.ts lines 403-405) as one explicit
state record. -/
structure State where
  serviceStorage : StableBTreeMap ServiceRecord
  reviewStorage : StableBTreeMap ReviewRecord
  userStorage : StableBTreeMap User
deriving DecidableEq

/-- The NotFound message built by the service operations. -/
def serviceNotFoundMsg (id : String) : String :=
  "Service with id=" ++ id ++ " not found"

/-- The Unauthorized message of updateService / updateServiceLocation. -/
def unauthorizedUpdateMsg : String :=
  "You are not authorized to update this service"

/-- The Unauthorized message of deleteService. -/
def unauthorizedDeleteMsg : String :=
  "You are not authorized to delete this service"

/-- addService (index.ts lines 47-66): rejects the payload when any of the
eight text fields is empty (JavaScript falsiness of a string), otherwise
builds the record `(id := uuid, createdAt := now, updatedAt := None,
...payload)` and inserts it under its id.  The caller argument is accepted
and ignored exactly as in the source. -/
def addService (payload : ServicePayload) (caller newId : String) (now : Nat)
    (st : State) : Result ServiceRecord × State :=
  if payload.name == "" || payload.category == "" || payload.provider == "" ||
      payload.date == "" || payload.startTime == "" || payload.endTime == "" ||
      payload.location == "" || payload.description == "" then
    (.Err "Missing or invalid input data", st)
  else
    let record : ServiceRecord :=
      { id := newId, createdAt := now, updatedAt := none,
        name := payload.name, category := payload.category,
        provider := payload.provider, date := payload.date,
        startTime := payload.startTime, endTime := payload.endTime,
        location := payload.location, description := payload.description }
    (.Ok record, { st with serviceStorage := st.serviceStorage.insert record.id record })

/-- updateService (index.ts lines 69-91): NotFound when the id is absent,
Unauthorized when the stored provider differs from the caller string, else
the spread `(...existingRecord, ...payload, updatedAt := Some(now))` is
stored under the id. -/
def updateService (id : String) (payload : ServicePayload) (caller : String)
    (now : Nat) (st : State) : Result ServiceRecord × State :=
  match st.serviceStorage.get id with
  | none => (.Err (serviceNotFoundMsg id), st)
  | some existingRecord =>
    if existingRecord.provider != caller then
      (.Err unauthorizedUpdateMsg, st)
    else
      let updatedRecord : ServiceRecord :=
        { id := existingRecord.id, createdAt := existingRecord.createdAt,
          name := payload.name, category := payload.category,
          provider := payload.provider, date := payload.date,
          startTime := payload.startTime, endTime := payload.endTime,
          location := payload.location, description := payload.description,
          updatedAt := some now }
      (.Ok updatedRecord,
        { st with serviceStorage := st.serviceStorage.insert id updatedRecord })

/-- deleteService (index.ts lines 94-111): NotFound when absent, Unauthorized
when the stored provider differs from the caller, else removes the entry and
returns the prior record. -/
def deleteService (id caller : String) (st : State) : Result ServiceRecord × State :=
  match st.serviceStorage.get id with
  | none => (.Err (serviceNotFoundMsg id), st)
  | some existingRecord =>
    if existingRecord.provider != caller then
      (.Err unauthorizedDeleteMsg, st)
    else
      (.Ok existingRecord, { st with serviceStorage := st.serviceStorage.remove id })

/-- getService (index.ts lines 114-123): the stored record or NotFound. -/
def getService (id : String) (st : State) : Result ServiceRecord :=
  match st.serviceStorage.get id with
  | none => .Err (serviceNotFoundMsg id)
  | some existingRecord => .Ok existingRecord

/-- getServices (index.ts lines 126-129): all service records. -/
def getServices (st : State) : Result (List ServiceRecord) :=
  .Ok st.serviceStorage.values

/-- JavaScript `toLowerCase`, lower-casing each character. -/
def jsToLower (s : String) : String := ⟨s.data.map Char.toLower⟩

/-- searchServicesByCategory (index.ts lines 132-137): keeps the services
whose lower-cased category equals the lower-cased argument. -/
def searchServicesByCategory (category : String) (st : State) :
    Result (List ServiceRecord) :=
  .Ok (st.serviceStorage.values.filter
    (fun service => jsToLower service.category == jsToLower category))

/-- filterServicesByProvider (index.ts lines 140-145): keeps the services
whose lower-cased provider equals the lower-cased argument. -/
def filterServicesByProvider (provider : String) (st : State) :
    Result (List ServiceRecord) :=
  .Ok (st.serviceStorage.values.filter
    (fun service => jsToLower service.provider == jsToLower provider))

/-- Lexicographic less-or-equal on character lists: the order JavaScript uses
to compare strings with `<=` and `>=`. -/
def charsLe : List Char → List Char → Bool
  | [], _ => true
  | _ :: _, [] => false
  | a :: as, b :: bs => decide (a < b) || (a == b && charsLe as bs)

/-- JavaScript string comparison `a <= b`. -/
def jsStrLe (a b : String) : Bool := charsLe a.data b.data

/-- filterServicesByDateRange (index.ts lines 148-153): keeps the services
with `startDate <= date` and `date <= endDate` under string comparison. -/
def filterServicesByDateRange (startDate endDate : String) (st : State) :
    Result (List ServiceRecord) :=
  .Ok (st.serviceStorage.values.filter
    (fun service => jsStrLe startDate service.date && jsStrLe service.date endDate))

/-- updateServiceLocation (index.ts lines 156-178): NotFound when absent,
Unauthorized when the stored provider differs from the caller, else stores
`(...existingRecord, location, updatedAt := Some(now))` under the id. -/
def updateServiceLocation (id location caller : String) (now : Nat)
    (st : State) : Result ServiceRecord × State :=
  match st.serviceStorage.get id with
  | none => (.Err (serviceNotFoundMsg id), st)
  | some existingRecord =>
    if existingRecord.provider != caller then
      (.Err unauthorizedUpdateMsg, st)
    else
      let updatedRecord : ServiceRecord :=
        { existingRecord with location := location, updatedAt := some now }
      (.Ok updatedRecord,
        { st with serviceStorage := st.serviceStorage.insert id updatedRecord })

/-- addReview (index.ts lines 205-229): InvalidInput when serviceId or userId
is empty, the rating is NaN, negative or above 5, or the comment is empty;
then a missing-service error when no service has the serviceId of the payload;
otherwise the review is created and inserted. -/
def addReview (payload : ReviewPayload) (caller newId : String) (now : Nat)
    (st : State) : Result ReviewRecord × State :=
  if payload.serviceId == "" || payload.userId == "" || payload.rating.isNaN ||
      payload.rating.jlt (.num 0) || (JSNum.num 5).jlt payload.rating ||
      payload.comment == "" then
    (.Err "Invalid review data", st)
  else
    match st.serviceStorage.get payload.serviceId with
    | none => (.Err "Service does not exist", st)
    | some _ =>
      let review : ReviewRecord :=
        { id := newId, createdAt := now, serviceId := payload.serviceId,
          userId := payload.userId, rating := payload.rating,
          comment := payload.comment }
      (.Ok review, { st with reviewStorage := st.reviewStorage.insert review.id review })

/-- getServiceReviews (index.ts lines 414-418): the reviews whose serviceId
equals the argument. -/
def getServiceReviews (serviceId : String) (st : State) :
    Result (List ReviewRecord) :=
  .Ok (st.reviewStorage.values.filter (fun review => review.serviceId == serviceId))

/-- getServiceAverageRating (index.ts lines 420-429): filters the reviews for
the serviceId, fails when none match, otherwise reduces the ratings with `+`
from 0 and divides by the count. -/
def getServiceAverageRating (serviceId : String) (st : State) : Result JSNum :=
  let reviews := st.reviewStorage.values.filter (fun review => review.serviceId == serviceId)
  if reviews.length == 0 then
    .Err "No reviews found for the service"
  else
    let totalRating := reviews.foldl (fun sum review => sum.add review.rating) (JSNum.num 0)
    .Ok (totalRating.divNat reviews.length)

/-- getAllReviews (index.ts lines 264-269): all review records. -/
def getAllReviews (st : State) : Result (List ReviewRecord) :=
  .Ok st.reviewStorage.values

/-- getAllUsers (index.ts lines 326-331): all user records. -/
def getAllUsers (st : State) : Result (List User) :=
  .Ok st.userStorage.values

/-- JavaScript `hay.includes(needle)`: substring containment. -/
def jsIncludes (hay needle : String) : Bool :=
  decide (List.IsInfix needle.data hay.data)

/-- searchUsersByUsername (index.ts lines 579-583): users whose lower-cased
username contains the lower-cased argument. -/
def searchUsersByUsername (username : String) (st : State) : Result (List User) :=
  .Ok (st.userStorage.values.filter
    (fun user => jsIncludes (jsToLower user.username) (jsToLower username)))

/-- searchUsersByEmail (index.ts lines 585-589): users whose lower-cased
email contains the lower-cased argument. -/
def searchUsersByEmail (email : String) (st : State) : Result (List User) :=
  .Ok (st.userStorage.values.filter
    (fun user => jsIncludes (jsToLower user.email) (jsToLower email)))

/-! Helper lemmas about the store embedding and the error strings. -/

theorem strData_append (s t : String) : (s ++ t).data = s.data ++ t.data := by
  cases s; cases t; rfl

theorem headChar_append (a b : String) (c : Char) (h : a.data.head? = some c) :
    (a ++ b).data.head? = some c := by
  rw [strData_append]
  cases ha : a.data with
  | nil => rw [ha] at h; simp at h
  | cons x xs => rw [ha] at h; simp at h; simp [ha, h]

theorem unauthorizedUpdateMsg_ne (i : String) :
    unauthorizedUpdateMsg ≠ serviceNotFoundMsg i := by
  intro h
  have h1 : unauthorizedUpdateMsg.data.head? = some 'Y' := by decide
  have h2 : (serviceNotFoundMsg i).data.head? = some 'S' := by
    unfold serviceNotFoundMsg
    exact headChar_append _ _ _ (headChar_append _ _ _ (by decide))
  rw [h, h2] at h1
  simp at h1

theorem find?_insertEntries_self {V : Type} (k : String) (v : V) (l : List (String × V)) :
    (insertEntries k v l).find? (fun p => p.1 == k) = some (k, v) := by
  induction l with
  | nil => simp [insertEntries, List.find?]
  | cons p ps ih =>
    by_cases hp : p.1 == k
    · simp [insertEntries, hp, List.find?]
    · simp only [insertEntries, hp, if_false, Bool.false_eq_true]
      rw [List.find?_cons_of_neg _ (by simpa using hp)]
      exact ih

theorem get_insert_self {V : Type} (m : StableBTreeMap V) (k : String) (v : V) :
    (m.insert k v).get k = some v := by
  simp [StableBTreeMap.insert, StableBTreeMap.get, find?_insertEntries_self]

theorem get_remove_self {V : Type} (m : StableBTreeMap V) (k : String) :
    (m.remove k).get k = none := by
  have hf : (m.entries.filter (fun p => p.1 != k)).find? (fun p => p.1 == k) = none := by
    rw [List.find?_eq_none]
    intro p hp
    have := (List.mem_filter.mp hp).2
    simpa using this
  simp [StableBTreeMap.remove, StableBTreeMap.get, hf]

theorem filter_eq_nil_of_none {α : Type} (p : α → Bool) (l : List α)
    (h : ∀ a ∈ l, p a = false) : l.filter p = [] := by
  rw [List.filter_eq_nil_iff]
  intro a ha
  simp [h a ha]

theorem foldl_add_ratings (l : List ReviewRecord) (qs : List ℚ) (a : ℚ)
    (h : l.map ReviewRecord.rating = qs.map JSNum.num) :
    l.foldl (fun sum review => sum.add review.rating) (JSNum.num a)
      = JSNum.num (a + qs.sum) := by
  induction l generalizing qs a with
  | nil =>
    cases qs with
    | nil => simp
    | cons q qt => simp at h
  | cons r rs ih =>
    cases qs with
    | nil => simp at h
    | cons q qt =>
      simp only [List.map_cons, List.cons.injEq] at h
      obtain ⟨h1, h2⟩ := h
      rw [List.foldl_cons, h1]
      show List.foldl _ (JSNum.num (a + q)) rs = _
      rw [ih qt (a + q) h2, List.sum_cons]
      ring_nf

theorem isOk_ne_Err {α : Type} (r : Result α) (e : String) (h : r.isOk = true) :
    r ≠ .Err e := by
  cases r with
  | Ok v => exact fun hcontra => Result.noConfusion hcontra
  | Err e' => simp [Result.isOk] at h

/-- The invalid-review condition in the terms of the spec: the rating is not a
number, is negative or exceeds 5, or the comment, serviceId or userId is
empty. -/
def invalidReviewProp (p : ReviewPayload) : Prop :=
  p.rating = JSNum.nan ∨ (∃ q : ℚ, p.rating = JSNum.num q ∧ (q < 0 ∨ 5 < q)) ∨
  p.comment = "" ∨ p.serviceId = "" ∨ p.userId = ""

theorem invalidReviewCond_iff (p : ReviewPayload) :
    ((p.serviceId == "" || p.userId == "" || p.rating.isNaN ||
      p.rating.jlt (.num 0) || (JSNum.num 5).jlt p.rating ||
      p.comment == "") = true) ↔ invalidReviewProp p := by
  unfold invalidReviewProp
  cases hr : p.rating with
  | nan => simp [JSNum.isNaN, JSNum.jlt]
  | num q =>
    simp [JSNum.isNaN, JSNum.jlt]
    tauto

/-! Concrete sample data used by the witness theorems. -/

/-- State with all three stores empty. -/
def emptyState : State := ⟨⟨[]⟩, ⟨[]⟩, ⟨[]⟩⟩

/-- Sample service provided by alice, dated 2024-01-15. -/
def sampleService : ServiceRecord :=
  { id := "s1", name := "Cleaning", category := "Food", provider := "alice",
    date := "2024-01-15", startTime := "09:00", endTime := "10:00",
    location := "Town", description := "weekly", createdAt := 1, updatedAt := none }

/-- Second sample service, dated 2024-02-01. -/
def sampleService2 : ServiceRecord :=
  { sampleService with id := "s2", date := "2024-02-01" }

/-- Sample full update payload naming a different provider (bob). -/
def samplePayload : ServicePayload :=
  { name := "Catering", category := "Beauty", provider := "bob", date := "2024-03-01",
    startTime := "10:00", endTime := "11:00", location := "City", description := "new" }

/-- State holding only sampleService under key s1. -/
def sampleStateSvc : State := ⟨⟨[("s1", sampleService)]⟩, ⟨[]⟩, ⟨[]⟩⟩

/-- State holding the two dated sample services. -/
def sampleStateDates : State :=
  ⟨⟨[("s1", sampleService), ("s2", sampleService2)]⟩, ⟨[]⟩, ⟨[]⟩⟩

/-- A review of service S with the given id and rating. -/
def sampleReview (i : String) (q : ℚ) : ReviewRecord :=
  { id := i, serviceId := "S", userId := "u1", rating := JSNum.num q,
    comment := "ok", createdAt := 0 }

/-- State whose review store holds ratings 3, 4 and 5 for service S. -/
def sampleStateReviews : State :=
  ⟨⟨[]⟩, ⟨[("r1", sampleReview "r1" 3), ("r2", sampleReview "r2" 4),
           ("r3", sampleReview "r3" 5)]⟩, ⟨[]⟩⟩

/-- Sample review payload targeting service s1. -/
def sampleReviewPayload : ReviewPayload :=
  { serviceId := "s1", userId := "u1", rating := JSNum.num 3, comment := "ok" }

/-! Claim theorems. -/

/-- C1: getServiceAverageRating fails with the no-reviews error when no stored
review has the given serviceId; otherwise, whenever the ratings of exactly the
reviews whose serviceId equals the argument are the numbers qs, it returns
their arithmetic mean, the sum of qs divided by their count. -/
theorem C1_average_rating (sid : String) (st : State) :
    ((∀ rv ∈ st.reviewStorage.values, rv.serviceId ≠ sid) →
      getServiceAverageRating sid st = .Err "No reviews found for the service") ∧
    (∀ qs : List ℚ,
      (st.reviewStorage.values.filter (fun rv => rv.serviceId == sid)).map
          ReviewRecord.rating = qs.map JSNum.num →
      qs ≠ [] →
      getServiceAverageRating sid st
        = .Ok (JSNum.num (qs.sum / (qs.length : ℚ)))) := by
  constructor
  · intro h
    have hnil : st.reviewStorage.values.filter (fun rv => rv.serviceId == sid) = [] := by
      apply filter_eq_nil_of_none
      intro rv hrv
      simpa using h rv hrv
    simp [getServiceAverageRating, hnil]
  · intro qs hmap hne
    have hlen : (st.reviewStorage.values.filter (fun rv => rv.serviceId == sid)).length
        = qs.length := by
      have := congrArg List.length hmap
      simpa using this
    have hpos : (st.reviewStorage.values.filter (fun rv => rv.serviceId == sid)).length ≠ 0 := by
      rw [hlen]
      simpa using hne
    unfold getServiceAverageRating
    simp only [hpos, if_neg, beq_iff_eq, if_false]
    rw [foldl_add_ratings _ qs 0 hmap, hlen]
    simp [JSNum.divNat]

/-- C1 witness: with stored ratings 3, 4 and 5 for service S the average is 4. -/
theorem C1_average_rating_witness :
    getServiceAverageRating "S" sampleStateReviews = .Ok (JSNum.num 4) := by
  have h := (C1_average_rating "S" sampleStateReviews).2 [3, 4, 5] (by decide) (by decide)
  rw [h]
  norm_num

/-- C2: with a record stored under the id, updateService with a caller string
different from the stored provider fails with the Unauthorized message,
distinct from every NotFound message, and leaves the whole state unchanged;
its result is a success exactly when the caller equals the stored provider. -/
theorem C2_update_authorization (id : String) (payload : ServicePayload)
    (caller : String) (now : Nat) (st : State) (r : ServiceRecord)
    (hget : st.serviceStorage.get id = some r) :
    (caller ≠ r.provider →
      updateService id payload caller now st = (.Err unauthorizedUpdateMsg, st)) ∧
    (∀ i : String, unauthorizedUpdateMsg ≠ serviceNotFoundMsg i) ∧
    ((updateService id payload caller now st).1.isOk = true ↔ caller = r.provider) := by
  refine ⟨?_, unauthorizedUpdateMsg_ne, ?_⟩
  · intro hne
    have hb : (r.provider != caller) = true := by
      simp
      exact fun h => hne h.symm
    simp [updateService, hget, hb]
  · by_cases hc : caller = r.provider
    · have hb : (r.provider != caller) = false := by simp [hc]
      simp [updateService, hget, hb, Result.isOk, hc]
    · have hb : (r.provider != caller) = true := by
        simp
        exact fun h => hc h.symm
      simp [updateService, hget, hb, Result.isOk]
      exact fun h => hc h

/-- C2 witness: mallory cannot update the service of alice and the state stays put. -/
theorem C2_update_authorization_witness :
    updateService "s1" samplePayload "mallory" 5 sampleStateSvc
      = (.Err unauthorizedUpdateMsg, sampleStateSvc) :=
  (C2_update_authorization "s1" samplePayload "mallory" 5 sampleStateSvc sampleService
    (by decide)).1 (by decide)

/-- C3: when the id is stored and the caller is the provider, deleteService
returns the full prior record and afterwards getService on the id fails with
NotFound; on an absent id it fails with NotFound and returns the state
unchanged. -/
theorem C3_delete_service (id caller : String) (st : State) :
    (∀ r : ServiceRecord, st.serviceStorage.get id = some r → caller = r.provider →
      deleteService id caller st
          = (.Ok r, { st with serviceStorage := st.serviceStorage.remove id }) ∧
      getService id { st with serviceStorage := st.serviceStorage.remove id }
          = .Err (serviceNotFoundMsg id)) ∧
    (st.serviceStorage.get id = none →
      deleteService id caller st = (.Err (serviceNotFoundMsg id), st)) := by
  constructor
  · intro r hget heq
    have hb : (r.provider != caller) = false := by simp [heq]
    constructor
    · simp [deleteService, hget, hb]
    · simp [getService, get_remove_self]
  · intro h
    simp [deleteService, h]

/-- C3 witness: alice deletes her stored service and a lookup then fails. -/
theorem C3_delete_service_witness :
    deleteService "s1" "alice" sampleStateSvc
        = (.Ok sampleService,
           { sampleStateSvc with
               serviceStorage := sampleStateSvc.serviceStorage.remove "s1" }) ∧
    getService "s1"
        { sampleStateSvc with
            serviceStorage := sampleStateSvc.serviceStorage.remove "s1" }
      = .Err (serviceNotFoundMsg "s1") :=
  (C3_delete_service "s1" "alice" sampleStateSvc).1 sampleService (by decide) (by decide)

/-- C4: a successful updateServiceLocation stores a record whose location is
the argument and whose updatedAt is freshly set, every other field being
identical to the previously stored record. -/
theorem C4_update_location (id loc caller : String) (now : Nat) (st : State)
    (r : ServiceRecord) (hget : st.serviceStorage.get id = some r)
    (hauth : caller = r.provider) :
    (updateServiceLocation id loc caller now st).1.isOk = true ∧
    (∀ r' : ServiceRecord, (updateServiceLocation id loc caller now st).1 = .Ok r' →
      (updateServiceLocation id loc caller now st).2.serviceStorage.get id = some r' ∧
      r'.location = loc ∧ r'.updatedAt = some now ∧
      r'.id = r.id ∧ r'.name = r.name ∧ r'.category = r.category ∧
      r'.provider = r.provider ∧ r'.date = r.date ∧ r'.startTime = r.startTime ∧
      r'.endTime = r.endTime ∧ r'.description = r.description ∧
      r'.createdAt = r.createdAt) := by
  have hb : (r.provider != caller) = false := by simp [hauth]
  constructor
  · simp [updateServiceLocation, hget, hb, Result.isOk]
  · intro r' hr'
    have hr'' : r' = { r with location := loc, updatedAt := some now } := by
      have : (updateServiceLocation id loc caller now st).1
          = .Ok { r with location := loc, updatedAt := some now } := by
        simp [updateServiceLocation, hget, hb]
      rw [this] at hr'
      cases hr'
      rfl
    subst hr''
    refine ⟨?_, rfl, rfl, rfl, rfl, rfl, rfl, rfl, rfl, rfl, rfl, rfl⟩
    simp [updateServiceLocation, hget, hb, get_insert_self]

/-- C4 witness: updating the location of the stored sample service to X keeps all
its other fields. -/
theorem C4_update_location_witness :
    (updateServiceLocation "s1" "X" "alice" 9 sampleStateSvc).2.serviceStorage.get "s1"
      = some { sampleService with location := "X", updatedAt := some 9 } :=
  ((C4_update_location "s1" "X" "alice" 9 sampleStateSvc sampleService (by decide)
      rfl).2 { sampleService with location := "X", updatedAt := some 9 } (by decide)).1

/-- C6: for a payload with all eight text fields non-empty, addService
succeeds with a record built from the payload, the fresh id and the
timestamp, and getService on the id of that record returns the very same record. -/
theorem C6_add_then_get (payload : ServicePayload) (caller newId : String)
    (now : Nat) (st : State)
    (h1 : payload.name ≠ "") (h2 : payload.category ≠ "")
    (h3 : payload.provider ≠ "") (h4 : payload.date ≠ "")
    (h5 : payload.startTime ≠ "") (h6 : payload.endTime ≠ "")
    (h7 : payload.location ≠ "") (h8 : payload.description ≠ "") :
    (addService payload caller newId now st).1.isOk = true ∧
    (∀ rec : ServiceRecord, (addService payload caller newId now st).1 = .Ok rec →
      getService rec.id (addService payload caller newId now st).2 = .Ok rec) := by
  have hc : (payload.name == "" || payload.category == "" || payload.provider == "" ||
      payload.date == "" || payload.startTime == "" || payload.endTime == "" ||
      payload.location == "" || payload.description == "") = false := by
    simp [h1, h2, h3, h4, h5, h6, h7, h8]
  constructor
  · simp [addService, hc, Result.isOk]
  · intro rec hrec
    have hres : (addService payload caller newId now st).1
        = .Ok { id := newId, createdAt := now, updatedAt := none,
                name := payload.name, category := payload.category,
                provider := payload.provider, date := payload.date,
                startTime := payload.startTime, endTime := payload.endTime,
                location := payload.location, description := payload.description } := by
      simp [addService, hc]
    rw [hres] at hrec
    cases hrec
    simp [addService, hc, getService, get_insert_self]

/-- C6 witness: adding the sample payload to the empty state and reading the
fresh id back yields the record addService returned. -/
theorem C6_add_then_get_witness :
    getService "fresh" (addService samplePayload "alice" "fresh" 7 emptyState).2
      = .Ok { id := "fresh", createdAt := 7, updatedAt := none,
              name := samplePayload.name, category := samplePayload.category,
              provider := samplePayload.provider, date := samplePayload.date,
              startTime := samplePayload.startTime, endTime := samplePayload.endTime,
              location := samplePayload.location,
              description := samplePayload.description } :=
  (C6_add_then_get samplePayload "alice" "fresh" 7 emptyState
      (by decide) (by decide) (by decide) (by decide) (by decide) (by decide)
      (by decide) (by decide)).2
    { id := "fresh", createdAt := 7, updatedAt := none,
      name := samplePayload.name, category := samplePayload.category,
      provider := samplePayload.provider, date := samplePayload.date,
      startTime := samplePayload.startTime, endTime := samplePayload.endTime,
      location := samplePayload.location, description := samplePayload.description }
    (by decide)

/-- C10: a successful full-payload updateService overwrites the provider (so
an authorized update can transfer ownership) and every other payload field,
preserving only id and createdAt, and stamping updatedAt. -/
theorem C10_full_merge (id : String) (payload : ServicePayload) (caller : String)
    (now : Nat) (st : State) (r : ServiceRecord)
    (hget : st.serviceStorage.get id = some r) (hauth : caller = r.provider) :
    (updateService id payload caller now st).1.isOk = true ∧
    (∀ r' : ServiceRecord, (updateService id payload caller now st).1 = .Ok r' →
      r'.provider = payload.provider ∧ r'.id = r.id ∧ r'.createdAt = r.createdAt ∧
      r'.name = payload.name ∧ r'.category = payload.category ∧
      r'.date = payload.date ∧ r'.startTime = payload.startTime ∧
      r'.endTime = payload.endTime ∧ r'.location = payload.location ∧
      r'.description = payload.description ∧ r'.updatedAt = some now) := by
  have hb : (r.provider != caller) = false := by simp [hauth]
  constructor
  · simp [updateService, hget, hb, Result.isOk]
  · intro r' hr'
    have hres : (updateService id payload caller now st).1
        = .Ok { id := r.id, createdAt := r.createdAt,
                name := payload.name, category := payload.category,
                provider := payload.provider, date := payload.date,
                startTime := payload.startTime, endTime := payload.endTime,
                location := payload.location, description := payload.description,
                updatedAt := some now } := by
      simp [updateService, hget, hb]
    rw [hres] at hr'
    cases hr'
    exact ⟨rfl, rfl, rfl, rfl, rfl, rfl, rfl, rfl, rfl, rfl, rfl⟩

/-- C10 witness: the full update by alice with a payload naming provider bob
succeeds, and by the main theorem hands the stored service to bob. -/
theorem C10_full_merge_witness :
    (updateService "s1" samplePayload "alice" 5 sampleStateSvc).1.isOk = true :=
  (C10_full_merge "s1" samplePayload "alice" 5 sampleStateSvc sampleService
    (by decide) rfl).1

/-- C5: addReview fails with the invalid-data error exactly when the rating is
not a number, negative or above 5, or the comment, serviceId or userId is
empty; it fails with the missing-service error exactly when the payload is
valid but no service has its serviceId; it succeeds exactly when the payload
is valid and the service exists; in particular rating 6 is rejected while
ratings 0 and 5 are accepted against the stored sample service. -/
theorem C5_add_review_validation (p : ReviewPayload) (caller newId : String)
    (now : Nat) (st : State) :
    ((addReview p caller newId now st).1 = .Err "Invalid review data" ↔
      invalidReviewProp p) ∧
    ((addReview p caller newId now st).1 = .Err "Service does not exist" ↔
      (¬ invalidReviewProp p ∧ st.serviceStorage.get p.serviceId = none)) ∧
    ((addReview p caller newId now st).1.isOk = true ↔
      (¬ invalidReviewProp p ∧ st.serviceStorage.get p.serviceId ≠ none)) ∧
    (addReview { sampleReviewPayload with rating := JSNum.num 6 }
        "u1" "rid" 0 sampleStateSvc).1 = .Err "Invalid review data" ∧
    (addReview { sampleReviewPayload with rating := JSNum.num 0 }
        "u1" "rid" 0 sampleStateSvc).1.isOk = true ∧
    (addReview { sampleReviewPayload with rating := JSNum.num 5 }
        "u1" "rid" 0 sampleStateSvc).1.isOk = true := by
  have hc := invalidReviewCond_iff p
  by_cases hbad : invalidReviewProp p
  · have hb : (p.serviceId == "" || p.userId == "" || p.rating.isNaN ||
        p.rating.jlt (.num 0) || (JSNum.num 5).jlt p.rating ||
        p.comment == "") = true := hc.mpr hbad
    have hres : (addReview p caller newId now st).1 = .Err "Invalid review data" := by
      simp [addReview, hb]
    rw [hres]
    refine ⟨iff_of_true rfl hbad,
      iff_of_false (by decide) (fun hh => hh.1 hbad),
      iff_of_false (by decide) (fun hh => hh.1 hbad),
      by decide, by decide, by decide⟩
  · have hb : (p.serviceId == "" || p.userId == "" || p.rating.isNaN ||
        p.rating.jlt (.num 0) || (JSNum.num 5).jlt p.rating ||
        p.comment == "") = false := by
      cases h : (p.serviceId == "" || p.userId == "" || p.rating.isNaN ||
        p.rating.jlt (.num 0) || (JSNum.num 5).jlt p.rating ||
        p.comment == "") with
      | false => rfl
      | true => exact absurd (hc.mp h) hbad
    cases hget : st.serviceStorage.get p.serviceId with
    | none =>
      have hres : (addReview p caller newId now st).1 = .Err "Service does not exist" := by
        simp [addReview, hb, hget]
      rw [hres]
      refine ⟨iff_of_false (by decide) hbad,
        iff_of_true rfl ⟨hbad, rfl⟩,
        iff_of_false (by decide) (fun hh => hh.2 rfl),
        by decide, by decide, by decide⟩
    | some s =>
      have hok : (addReview p caller newId now st).1.isOk = true := by
        simp [addReview, hb, hget, Result.isOk]
      refine ⟨iff_of_false ((isOk_ne_Err _ _ hok)) hbad,
        iff_of_false ((isOk_ne_Err _ _ hok))
          (fun hh => Option.noConfusion hh.2),
        iff_of_true hok ⟨hbad, by simp⟩,
        by decide, by decide, by decide⟩

/-- C7: searchServicesByCategory keeps exactly the services whose category
equals the argument after lower-casing both, filterServicesByProvider does
the same on the provider field, and searching for Food or food gives the
same result on every state. -/
theorem C7_case_insensitive_filters (c pv : String) (st : State) (s : ServiceRecord) :
    (s ∈ (searchServicesByCategory c st).getD [] ↔
      s ∈ st.serviceStorage.values ∧ jsToLower s.category = jsToLower c) ∧
    (s ∈ (filterServicesByProvider pv st).getD [] ↔
      s ∈ st.serviceStorage.values ∧ jsToLower s.provider = jsToLower pv) ∧
    searchServicesByCategory "Food" st = searchServicesByCategory "food" st := by
  refine ⟨?_, ?_, ?_⟩
  · simp [searchServicesByCategory, Result.getD, List.mem_filter]
  · simp [filterServicesByProvider, Result.getD, List.mem_filter]
  · have h : jsToLower "Food" = jsToLower "food" := by decide
    simp only [searchServicesByCategory, h]

/-- C8: filterServicesByDateRange keeps exactly the services whose date lies
between the bounds in the lexicographic string order, both endpoints
included; with bounds 2024-01-01 and 2024-01-31 the sample service dated
2024-01-15 is kept and the one dated 2024-02-01 is not. -/
theorem C8_date_range (sd ed : String) (st : State) (s : ServiceRecord) :
    (s ∈ (filterServicesByDateRange sd ed st).getD [] ↔
      s ∈ st.serviceStorage.values ∧ jsStrLe sd s.date = true ∧
        jsStrLe s.date ed = true) ∧
    sampleService ∈
      (filterServicesByDateRange "2024-01-01" "2024-01-31" sampleStateDates).getD [] ∧
    sampleService2 ∉
      (filterServicesByDateRange "2024-01-01" "2024-01-31" sampleStateDates).getD [] := by
  refine ⟨?_, by decide, by decide⟩
  simp [filterServicesByDateRange, Result.getD, List.mem_filter, Bool.and_eq_true]

/-- C9: every enumeration, filter and search query returns the success branch
on every argument and state, and getServiceReviews of a serviceId with no
matching review returns the empty list rather than an error. -/
theorem C9_queries_total (st : State) (c pv sd ed sid un em : String) :
    (getServices st).isOk = true ∧
    (searchServicesByCategory c st).isOk = true ∧
    (filterServicesByProvider pv st).isOk = true ∧
    (filterServicesByDateRange sd ed st).isOk = true ∧
    (getServiceReviews sid st).isOk = true ∧
    (getAllReviews st).isOk = true ∧
    (getAllUsers st).isOk = true ∧
    (searchUsersByUsername un st).isOk = true ∧
    (searchUsersByEmail em st).isOk = true ∧
    ((∀ rv ∈ st.reviewStorage.values, rv.serviceId ≠ sid) →
      getServiceReviews sid st = .Ok []) := by
  refine ⟨rfl, rfl, rfl, rfl, rfl, rfl, rfl, rfl, rfl, ?_⟩
  intro h
  have hnil : st.reviewStorage.values.filter (fun rv => rv.serviceId == sid) = [] := by
    apply filter_eq_nil_of_none
    intro rv hrv
    simpa using h rv hrv
  simp [getServiceReviews, hnil]

/-- C9 witness: on the empty state, getServiceReviews of S is the empty list. -/
theorem C9_queries_total_witness :
    getServiceReviews "S" emptyState = .Ok [] :=
  (C9_queries_total emptyState "" "" "" "" "S" "" "").2.2.2.2.2.2.2.2.2
    (fun rv hrv => by simp [emptyState, StableBTreeMap.values] at hrv)

/-- C5 witness: against the stored sample service, a rating of 6 is rejected
as invalid review data. -/
theorem C5_add_review_validation_witness :
    (addReview { sampleReviewPayload with rating := JSNum.num 6 }
        "u1" "rid" 0 sampleStateSvc).1 = .Err "Invalid review data" :=
  (C5_add_review_validation sampleReviewPayload "u1" "rid" 0 sampleStateSvc).2.2.2.1

/-- C7 witness: searching for Food and for food gives the same result on the
sample state. -/
theorem C7_case_insensitive_filters_witness :
    searchServicesByCategory "Food" sampleStateSvc
      = searchServicesByCategory "food" sampleStateSvc :=
  (C7_case_insensitive_filters "Food" "alice" sampleStateSvc sampleService).2.2

/-- C8 witness: the sample service dated 2024-01-15 lies in the January 2024
range. -/
theorem C8_date_range_witness :
    sampleService ∈
      (filterServicesByDateRange "2024-01-01" "2024-01-31" sampleStateDates).getD [] :=
  (C8_date_range "2024-01-01" "2024-01-31" sampleStateDates sampleService).2.1

end OSM
